import Mathlib

/-!
Verification of the `dmi-weather` scripts (`dmi_api_examples.py` and
`fetch_with_selenium.py`) against their natural-language specification.

The two Python scripts are shallowly embedded below: JSON-compatible Python
values become the inductive `PyVal`; Python `dict.get`/subscript/iteration and
truthiness become explicit total functions returning `Except PyErr`; side
effects (printed lines, file writes, browser events) become explicit event
lists; the HTTP layer and the browser become environment parameters supplying
the values the real collaborators would return.
-/

/-- JSON-compatible Python values: the value domain of both scripts
(`None`, booleans, integers, strings, lists, dicts with string keys).
A dict is an insertion-ordered association list, as in Python 3.7+. -/
inductive PyVal where
  | none : PyVal
  | bool : Bool → PyVal
  | int : Int → PyVal
  | str : String → PyVal
  | list : List PyVal → PyVal
  | dict : List (String × PyVal) → PyVal

/-- Python exceptions that the embedded code can raise. -/
inductive PyErr where
  | keyError : String → PyErr
  | typeError : PyErr
  | attributeError : PyErr
  | indexError : PyErr
  | jsonDecodeError : PyErr
  | timeoutException : PyErr
  | webDriverException : PyErr
deriving DecidableEq, Repr

/-- First-match association-list lookup: Python dict key lookup
(dict literals in these scripts never repeat a key). -/
def lookup' : List (String × PyVal) → String → Option PyVal
  | [], _ => Option.none
  | (k, v) :: rest, key => if k = key then some v else lookup' rest key

/-- Python truthiness (`bool(v)`): `None`/`False`/`0`/`""`/`[]`/`\x7b\x7d` are falsy. -/
def pyTruthy : PyVal → Bool
  | .none => false
  | .bool b => b
  | .int n => n ≠ 0
  | .str s => s ≠ ""
  | .list xs => ¬ xs.isEmpty
  | .dict d => ¬ d.isEmpty

/-- `v.get(key, default)`: default-value lookup on a dict;
calling `.get` on a non-dict raises `AttributeError`. -/
def pyDictGet (v : PyVal) (key : String) (dflt : PyVal) : Except PyErr PyVal :=
  match v with
  | .dict d => .ok ((lookup' d key).getD dflt)
  | _ => .error .attributeError

/-- Subscript `v[k]`: dict lookup raising `KeyError` when the key is missing,
list/str indexing raising `IndexError` when out of range (the scripts only use
index `0`, so negative indices are not modelled), anything else `TypeError`. -/
def pySubscr (v : PyVal) (k : PyVal) : Except PyErr PyVal :=
  match v, k with
  | .dict d, .str s =>
      match lookup' d s with
      | some x => .ok x
      | Option.none => .error (.keyError s)
  | .list xs, .int i =>
      if h : 0 ≤ i ∧ i.toNat < xs.length then .ok (xs.get ⟨i.toNat, h.2⟩)
      else .error .indexError
  | .str s, .int i =>
      if h : 0 ≤ i ∧ i.toNat < s.data.length then .ok (.str (String.mk [s.data.get ⟨i.toNat, h.2⟩]))
      else .error .indexError
  | _, _ => .error .typeError

/-- `for x in v`: lists yield their elements, strings their characters
(as one-character strings), dicts their keys; other values raise `TypeError`. -/
def pyIter : PyVal → Except PyErr (List PyVal)
  | .list xs => .ok xs
  | .str s => .ok (s.data.map fun c => .str (String.mk [c]))
  | .dict d => .ok (d.map fun kv => .str kv.1)
  | _ => .error .typeError

mutual
/-- Python `repr` of a value, as used by f-string interpolation of containers.
String escaping inside `repr` is elided (no string in the verified claims needs
it); the function only has to be a fixed deterministic serialization. -/
def pyRepr : PyVal → String
  | .none => "None"
  | .bool b => if b then "True" else "False"
  | .int n => toString n
  | .str s => "'" ++ s ++ "'"
  | .list xs => "[" ++ pyReprList xs ++ "]"
  | .dict d => "\x7b" ++ pyReprDict d ++ "\x7d"

def pyReprList : List PyVal → String
  | [] => ""
  | [x] => pyRepr x
  | x :: y :: rest => pyRepr x ++ ", " ++ pyReprList (y :: rest)

def pyReprDict : List (String × PyVal) → String
  | [] => ""
  | [(k, v)] => "'" ++ k ++ "': " ++ pyRepr v
  | (k, v) :: kv :: rest => "'" ++ k ++ "': " ++ pyRepr v ++ ", " ++ pyReprDict (kv :: rest)
end

/-- Python `str(v)`, as used by f-string interpolation. -/
def pyStr : PyVal → String
  | .str s => s
  | v => pyRepr v

/-- Spaces for JSON indentation. -/
def spaces (n : Nat) : String := String.mk (List.replicate n ' ')

mutual
/-- `json.dumps(v, indent=2)` at a given current indentation level.
JSON string escaping is elided (no claim depends on escaped output); the
function is a fixed deterministic serialization of a parsed document. -/
def dumpsAux : PyVal → Nat → String
  | .none, _ => "null"
  | .bool b, _ => if b then "true" else "false"
  | .int n, _ => toString n
  | .str s, _ => "\"" ++ s ++ "\""
  | .list xs, ind =>
      match xs with
      | [] => "[]"
      | _ => "[\n" ++ dumpsList xs (ind + 2) ++ "\n" ++ spaces ind ++ "]"
  | .dict d, ind =>
      match d with
      | [] => "\x7b\x7d"
      | _ => "\x7b\n" ++ dumpsDict d (ind + 2) ++ "\n" ++ spaces ind ++ "\x7d"

def dumpsList : List PyVal → Nat → String
  | [], _ => ""
  | [x], ind => spaces ind ++ dumpsAux x ind
  | x :: y :: rest, ind => spaces ind ++ dumpsAux x ind ++ ",\n" ++ dumpsList (y :: rest) ind

def dumpsDict : List (String × PyVal) → Nat → String
  | [], _ => ""
  | [(k, v)], ind => spaces ind ++ "\"" ++ k ++ "\": " ++ dumpsAux v ind
  | (k, v) :: kv :: rest, ind =>
      spaces ind ++ "\"" ++ k ++ "\": " ++ dumpsAux v ind ++ ",\n" ++ dumpsDict (kv :: rest) ind
end

/-- The serialization `json.dump(v, f, indent=2)` writes. -/
def dumps (v : PyVal) : String := dumpsAux v 0

/-- `get_stations(limit=10, bbox=None)`: query parameters sent to
`GET \x7bBASE_URL\x7d/collections/station/items`. `params = \x7b"limit": limit\x7d`,
then `bbox` is added only under `if bbox:` (Python truthiness). -/
def get_stations_params (limit : PyVal) (bbox : PyVal) : List (String × PyVal) :=
  let params := [("limit", limit)]
  if pyTruthy bbox then params ++ [("bbox", bbox)] else params

/-- `get_observations(parameter_id=None, station_id=None, datetime_range=None, limit=10)`:
query parameters sent to `GET \x7bBASE_URL\x7d/collections/observation/items`.
`params = \x7b"limit": limit\x7d`, then each filter is added only under an
`if <arg>:` truthiness check, in source order. -/
def get_observations_params (parameter_id station_id datetime_range limit : PyVal) :
    List (String × PyVal) :=
  let params := [("limit", limit)]
  let params := if pyTruthy parameter_id then params ++ [("parameterId", parameter_id)] else params
  let params := if pyTruthy station_id then params ++ [("stationId", station_id)] else params
  if pyTruthy datetime_range then params ++ [("datetime", datetime_range)] else params

/-- A computation that prints lines / emits events of type `ω` and either
returns a value or raises a Python exception; the events emitted before the
exception are kept (they already happened). -/
def Eff (ω α : Type) : Type := List ω × Except PyErr α

/-- Sequencing of effectful steps: an exception short-circuits, output
accumulates in order. -/
def ebind {ω α β : Type} (x : Eff ω α) (f : α → Eff ω β) : Eff ω β :=
  match x with
  | (ls, .error e) => (ls, .error e)
  | (ls, .ok a) => (ls ++ (f a).1, (f a).2)

/-- A pure step. -/
def epure {ω α : Type} (a : α) : Eff ω α := ([], .ok a)

/-- One `print(s)` call (or one emitted event). -/
def emit {ω : Type} (s : ω) : Eff ω Unit := ([s], .ok ())

/-- Lift a fallible pure computation into `Eff`. -/
def elift {ω α : Type} (r : Except PyErr α) : Eff ω α := ([], r)

/-- An HTTP response as seen by `dmi_api_examples.py`: `response.ok` (status
is 2xx/3xx) and the result of `response.json()` (`Option.none` models a body
that is not JSON, so `response.json()` raises `JSONDecodeError`). -/
structure HttpResponse where
  ok : Bool
  jsonBody : Option PyVal

/-- `response.json()`. -/
def respJson (resp : HttpResponse) : Except PyErr PyVal :=
  match resp.jsonBody with
  | some j => .ok j
  | Option.none => .error .jsonDecodeError

/-- Observable effects of `get_api_docs` besides printing: opening
`dmi_openapi.json` in mode `"w"` (which truncates it) and the `json.dump`
that writes the serialized document into it. -/
inductive DocsEv where
  | openTrunc : DocsEv
  | writeDoc : String → DocsEv
  | printed : String → DocsEv
deriving DecidableEq, Repr

/-- `get_api_docs()`: GET `\x7bBASE_URL\x7d/api`; `if response.ok:` open the
output file (truncating it), `json.dump(response.json(), f, indent=2)`, print
a confirmation; finally `return response.json()` unconditionally. The `resp`
parameter is what the HTTP layer returned. -/
def get_api_docs (resp : HttpResponse) : Eff DocsEv PyVal :=
  ebind
    (if resp.ok then
      ebind (emit DocsEv.openTrunc) fun _ =>
      ebind (elift (respJson resp)) fun j =>
      ebind (emit (DocsEv.writeDoc (dumps j))) fun _ =>
      emit (DocsEv.printed "OpenAPI spec saved to dmi_openapi.json")
    else epure ()) fun _ =>
  elift (respJson resp)

/-- Replay the file effects of `get_api_docs` on the content of
`dmi_openapi.json` (`Option.none` = file does not exist): opening in `"w"`
mode truncates to empty, `json.dump` replaces the content with the
serialization. -/
def applyDocsFs (fs : Option String) : List DocsEv → Option String
  | [] => fs
  | DocsEv.openTrunc :: rest => applyDocsFs (some "") rest
  | DocsEv.writeDoc s :: rest => applyDocsFs (some s) rest
  | DocsEv.printed _ :: rest => applyDocsFs fs rest

/-- The loop body of `print_api_structure` over one element of
`collections.get("collections", [])`:
`print(f"- \x7bcollection['id']\x7d: \x7bcollection.get('title', 'N/A')\x7d")`,
`print(f"  Description: \x7bcollection.get('description', 'N/A')\x7d")`, `print()`. -/
def printCollectionEntry (c : PyVal) : Eff String Unit :=
  ebind (elift (pySubscr c (.str "id"))) fun cid =>
  ebind (elift (pyDictGet c "title" (.str "N/A"))) fun title =>
  ebind (emit ("- " ++ pyStr cid ++ ": " ++ pyStr title)) fun _ =>
  ebind (elift (pyDictGet c "description" (.str "N/A"))) fun desc =>
  ebind (emit ("  Description: " ++ pyStr desc)) fun _ =>
  emit ""

/-- The `for collection in ...` loop of `print_api_structure`. -/
def printCollectionsLoop : List PyVal → Eff String Unit
  | [] => epure ()
  | c :: rest => ebind (printCollectionEntry c) fun _ => printCollectionsLoop rest

/-- The `for standard in conformance.get("conformsTo", [])` loop. -/
def printStandardsLoop : List PyVal → Eff String Unit
  | [] => epure ()
  | s :: rest => ebind (emit ("- " ++ pyStr s)) fun _ => printStandardsLoop rest

/-- The `for param in station["properties"].get("parameterId", [])` loop. -/
def printParamsLoop : List PyVal → Eff String Unit
  | [] => epure ()
  | p :: rest => ebind (emit ("- " ++ pyStr p)) fun _ => printParamsLoop rest

/-- The collections block of `print_api_structure` (header prints, then
iteration over `collections.get("collections", [])`), applied to the parsed
body of the `GET /collections` response. -/
def collectionsBlock (collections : PyVal) : Eff String Unit :=
  ebind (emit "DMI Open Data API Structure") fun _ =>
  ebind (emit (String.mk (List.replicate 50 '='))) fun _ =>
  ebind (emit "\nAvailable Collections:") fun _ =>
  ebind (elift (pyDictGet collections "collections" (.list []))) fun v =>
  ebind (elift (pyIter v)) fun xs =>
  printCollectionsLoop xs

/-- The conformance block of `print_api_structure`. -/
def conformanceBlock (conformance : PyVal) : Eff String Unit :=
  ebind (emit "\nAPI Conforms to:") fun _ =>
  ebind (elift (pyDictGet conformance "conformsTo" (.list []))) fun v =>
  ebind (elift (pyIter v)) fun xs =>
  printStandardsLoop xs

/-- The station block of `print_api_structure`:
`if stations.get("features"):` then `station = stations["features"][0]`,
print its name via `station['properties'].get('name', 'N/A')` and iterate
`station["properties"].get("parameterId", [])`. -/
def stationBlock (stations : PyVal) : Eff String Unit :=
  ebind (elift (pyDictGet stations "features" .none)) fun feats =>
  if pyTruthy feats then
    ebind (elift (pySubscr stations (.str "features"))) fun featsV =>
    ebind (elift (pySubscr featsV (.int 0))) fun station =>
    ebind (elift (pySubscr station (.str "properties"))) fun props =>
    ebind (elift (pyDictGet props "name" (.str "N/A"))) fun nm =>
    ebind (emit ("\nExample Station: " ++ pyStr nm)) fun _ =>
    ebind (emit "Available Parameters:") fun _ =>
    ebind (elift (pySubscr station (.str "properties"))) fun props2 =>
    ebind (elift (pyDictGet props2 "parameterId" (.list []))) fun params =>
    ebind (elift (pyIter params)) fun xs =>
    printParamsLoop xs
  else epure ()

/-- `print_api_structure()`, with the parsed bodies of the three GET calls
(`get_collections()`, `get_conformance()`, `get_stations(limit=1)`) supplied
as parameters. The result is the list of printed lines together with the
exception, if any, that escaped the function. -/
def print_api_structure (collections conformance stations : PyVal) : Eff String Unit :=
  ebind (collectionsBlock collections) fun _ =>
  ebind (conformanceBlock conformance) fun _ =>
  stationBlock stations

/-- JavaScript truthiness of a JSON-bridged value. It differs from Python
truthiness: every object and array is truthy in JavaScript, even empty ones.
`PyVal.none` doubles for JS `null`/`undefined`. -/
def jsTruthy : PyVal → Bool
  | .none => false
  | .bool b => b
  | .int n => n ≠ 0
  | .str s => s ≠ ""
  | .list _ => true
  | .dict _ => true

/-- JavaScript property access `v.name` on a value that is not
`null`/`undefined` (the in-page script only dereferences values it has just
checked to be truthy): objects yield the property or `undefined`, truthy
primitives yield `undefined`. -/
def jsProp (v : PyVal) (name : String) : PyVal :=
  match v with
  | .dict d => (lookup' d name).getD .none
  | _ => .none

/-- `window.ui` as the in-page extraction script sees it. Functions cannot be
JSON values, so each callable probe is modelled by the value it would return:
`specSelectorsSpecJson = some r` states that `window.ui.specSelectors` and
`window.ui.specSelectors.specJson` both exist (objects and functions are
always truthy in JS) and the call `specJson()` returns `r`; likewise `spec`
for the callable `window.ui.spec` and `getState` for `window.ui.getState`. -/
structure Ui where
  specSelectorsSpecJson : Option PyVal
  spec : Option PyVal
  getState : Option PyVal

/-- The page state the extraction script reads: `window.ui` (absent or
falsy ⇒ `Option.none`) and the global `window.swaggerSpec`
(`PyVal.none` = undefined). -/
structure Window where
  ui : Option Ui
  swaggerSpec : PyVal

/-- The in-page extraction script of `fetch_swagger_spec`, translated
branch-for-branch from the JavaScript source: the `if/else if` chain over
`ui.specSelectors.specJson`, `ui.spec`, `window.swaggerSpec`, and the Redux
probe `state = ui.getState(); state && state.spec && state.spec.json`,
falling through to `return null`. -/
def extractScript (w : Window) : PyVal :=
  match w.ui.bind Ui.specSelectorsSpecJson with
  | some r => r
  | Option.none =>
    match w.ui.bind Ui.spec with
    | some r => r
    | Option.none =>
      if jsTruthy w.swaggerSpec then w.swaggerSpec
      else
        match w.ui.bind Ui.getState with
        | some st =>
          if jsTruthy st && jsTruthy (jsProp st "spec") &&
              jsTruthy (jsProp (jsProp st "spec") "json") then
            jsProp (jsProp st "spec") "json"
          else .none
        | Option.none => .none

/-- The four lookup strategies of the extraction script as the spec describes
them: an ordered list of (guard, value) pairs, tried in sequence. Guard and
value of each strategy are read off the corresponding JS condition. -/
def specStrategies : List ((Window → Bool) × (Window → PyVal)) :=
  [ (fun w => (w.ui.bind Ui.specSelectorsSpecJson).isSome,
     fun w => (w.ui.bind Ui.specSelectorsSpecJson).getD .none),
    (fun w => (w.ui.bind Ui.spec).isSome,
     fun w => (w.ui.bind Ui.spec).getD .none),
    (fun w => jsTruthy w.swaggerSpec,
     fun w => w.swaggerSpec),
    (fun w =>
       match w.ui.bind Ui.getState with
       | some st => jsTruthy st && jsTruthy (jsProp st "spec") &&
           jsTruthy (jsProp (jsProp st "spec") "json")
       | Option.none => false,
     fun w =>
       match w.ui.bind Ui.getState with
       | some st => jsProp (jsProp st "spec") "json"
       | Option.none => .none) ]

/-- First-match evaluation of an ordered strategy list, with the null
sentinel when no strategy matches. -/
def firstMatch : List ((Window → Bool) × (Window → PyVal)) → Window → PyVal
  | [], _ => .none
  | (g, v) :: rest, w => if g w then v w else firstMatch rest w

/-- Observable events of `fetch_swagger_spec`, in order of occurrence. -/
inductive SelEv where
  | navigate : SelEv
  | waitReady : SelEv
  | sleep : SelEv
  | execExtract : SelEv
  | writeSpec : String → SelEv
  | execProbe : SelEv
  | printed : String → SelEv
  | quit : SelEv
deriving DecidableEq, Repr

/-- The browser environment `fetch_swagger_spec` runs against: outcome of
`driver.get(...)`, of the `WebDriverWait(...).until(...)` ready-wait
(`.error .timeoutException` when the marker element never appears), of the
extraction `driver.execute_script(...)` (on success, the value the in-page
script returned), and of the secondary spec-URL probe script. -/
structure SelEnv where
  navigate : Except PyErr Unit
  waitReady : Except PyErr Unit
  extract : Except PyErr PyVal
  probe : Except PyErr PyVal

/-- The body of the `try:` block of `fetch_swagger_spec`: navigate, ready-wait,
`time.sleep(3)`, run the extraction script; `if spec:` dump it to
`dmi_api_selenium.json`, else print the not-found message and run the
best-effort spec-URL probe. -/
def fetchTryBody (env : SelEnv) : Eff SelEv Unit :=
  ebind (emit (SelEv.printed "Loading Swagger UI page...")) fun _ =>
  ebind (emit SelEv.navigate) fun _ =>
  ebind (elift env.navigate) fun _ =>
  ebind (emit SelEv.waitReady) fun _ =>
  ebind (elift env.waitReady) fun _ =>
  ebind (emit SelEv.sleep) fun _ =>
  ebind (emit (SelEv.printed "Extracting API specification...")) fun _ =>
  ebind (emit SelEv.execExtract) fun _ =>
  ebind (elift env.extract) fun spec =>
  if pyTruthy spec then
    ebind (emit (SelEv.printed "Successfully extracted API specification!")) fun _ =>
    ebind (emit (SelEv.writeSpec (dumps spec))) fun _ =>
    emit (SelEv.printed "Saved to: dmi_api_selenium.json")
  else
    ebind (emit (SelEv.printed "Could not extract specification from JavaScript")) fun _ =>
    ebind (emit SelEv.execProbe) fun _ =>
    ebind (elift env.probe) fun specUrl =>
    if pyTruthy specUrl then
      emit (SelEv.printed ("Found spec URL: " ++ pyStr specUrl))
    else epure ()

/-- `fetch_swagger_spec()`: the `try:` body above wrapped in
`try/finally: driver.quit()` — the `finally` clause runs `driver.quit()` after
the body, whether it returned or raised, and then the body's outcome
(return or exception) propagates to the caller. -/
def fetch_swagger_spec (env : SelEnv) : Eff SelEv Unit :=
  ((fetchTryBody env).1 ++ [SelEv.quit], (fetchTryBody env).2)

lemma ebind_fst_ok {ω α β : Type} (x : Eff ω α) (f : α → Eff ω β) (a : α)
    (h : x.2 = .ok a) : (ebind x f).1 = x.1 ++ (f a).1 := by
  obtain ⟨ls, r⟩ := x
  cases r with
  | error e => simp at h
  | ok b =>
    simp only [Except.ok.injEq] at h
    subst h
    rfl

lemma ebind_snd_ok {ω α β : Type} (x : Eff ω α) (f : α → Eff ω β) (a : α)
    (h : x.2 = .ok a) : (ebind x f).2 = (f a).2 := by
  obtain ⟨ls, r⟩ := x
  cases r with
  | error e => simp at h
  | ok b =>
    simp only [Except.ok.injEq] at h
    subst h
    rfl

/-- C5. `get_stations(limit=5, bbox=None)` sends exactly
`\x7b"limit": 5\x7d` as query parameters: the mapping is the singleton
`[("limit", 5)]`, so in particular no `"bbox"` key is present. -/
theorem c5_stations_limit5_params :
    get_stations_params (.int 5) .none = [("limit", PyVal.int 5)]
    ∧ lookup' (get_stations_params (.int 5) .none) "bbox" = Option.none :=
  ⟨rfl, rfl⟩

/-- C6. `get_observations(station_id="06074")` (other filters at their
defaults, `limit` defaulting to 10) sends exactly
`\x7b"limit": 10, "stationId": "06074"\x7d`: no `"parameterId"` or
`"datetime"` key is present. -/
theorem c6_observations_station_only_params :
    get_observations_params .none (.str "06074") .none (.int 10)
      = [("limit", PyVal.int 10), ("stationId", PyVal.str "06074")]
    ∧ lookup' (get_observations_params .none (.str "06074") .none (.int 10)) "parameterId"
      = Option.none
    ∧ lookup' (get_observations_params .none (.str "06074") .none (.int 10)) "datetime"
      = Option.none :=
  ⟨rfl, rfl, rfl⟩

/-- C9. In `get_stations` and `get_observations`, each optional filter key
(`bbox`, `parameterId`, `stationId`, `datetime`) appears in the outgoing
query parameters iff the corresponding argument is truthy — falsy non-None
arguments such as `""` or `0` are omitted exactly like `None` — while the
`limit` key is present in every call with the given limit value. -/
theorem c9_optional_filters_iff_truthy (limit bbox pid sid dtr : PyVal) :
    lookup' (get_stations_params limit bbox) "limit" = some limit
    ∧ ((lookup' (get_stations_params limit bbox) "bbox").isSome ↔ pyTruthy bbox = true)
    ∧ lookup' (get_observations_params pid sid dtr limit) "limit" = some limit
    ∧ ((lookup' (get_observations_params pid sid dtr limit) "parameterId").isSome
        ↔ pyTruthy pid = true)
    ∧ ((lookup' (get_observations_params pid sid dtr limit) "stationId").isSome
        ↔ pyTruthy sid = true)
    ∧ ((lookup' (get_observations_params pid sid dtr limit) "datetime").isSome
        ↔ pyTruthy dtr = true) := by
  cases hb : pyTruthy bbox <;> cases hp : pyTruthy pid <;> cases hs : pyTruthy sid <;>
    cases hd : pyTruthy dtr <;>
    simp [get_stations_params, get_observations_params, hb, hp, hs, hd, lookup']

/-- C1. On every exit path of `fetch_swagger_spec` — extraction succeeded,
specification not found, or an exception raised during navigation, the
ready-wait, or extraction — `driver.quit()` runs (it is the last browser
event of the trace) before the try-body's outcome, success or exception,
propagates unchanged to the caller. -/
theorem c1_quit_on_every_exit_path (env : SelEnv) :
    SelEv.quit ∈ (fetch_swagger_spec env).1
    ∧ ((fetch_swagger_spec env).1).getLast? = some SelEv.quit
    ∧ (fetch_swagger_spec env).2 = (fetchTryBody env).2 := by
  refine ⟨?_, ?_, rfl⟩
  · simp [fetch_swagger_spec]
  · show ((fetchTryBody env).1 ++ SelEv.quit :: []).getLast? = some SelEv.quit
    rw [List.getLast?_append_cons]
    rfl

/-- C2. The in-page extraction script is first-match evaluation of the four
lookup strategies in their fixed order (`specSelectors.specJson`, `ui.spec`,
global `swaggerSpec`, Redux `state.spec.json`), and when none of the four
strategies matches it returns the null sentinel (it is a total function —
no exception is raised). -/
theorem c2_extract_first_match (w : Window) :
    extractScript w = firstMatch specStrategies w
    ∧ (w.ui.bind Ui.specSelectorsSpecJson = Option.none →
       w.ui.bind Ui.spec = Option.none →
       jsTruthy w.swaggerSpec = false →
       (∀ st, w.ui.bind Ui.getState = some st →
         (jsTruthy st && jsTruthy (jsProp st "spec")
           && jsTruthy (jsProp (jsProp st "spec") "json")) = false) →
       extractScript w = PyVal.none) := by
  constructor
  · unfold extractScript firstMatch specStrategies
    cases h1 : w.ui.bind Ui.specSelectorsSpecJson with
    | some r => simp [firstMatch, h1]
    | none =>
      cases h2 : w.ui.bind Ui.spec with
      | some r => simp [firstMatch, h1, h2]
      | none =>
        cases h3 : jsTruthy w.swaggerSpec with
        | true => simp [firstMatch, h1, h2, h3]
        | false =>
          cases h4 : w.ui.bind Ui.getState with
          | some st => simp [firstMatch, h1, h2, h3, h4, Bool.and_assoc, and_assoc]
          | none => simp [firstMatch, h1, h2, h3, h4]
  · intro h1 h2 h3 h4
    unfold extractScript
    rw [h1, h2, h3]
    cases h5 : w.ui.bind Ui.getState with
    | some st => simp [h4 st h5]
    | none => simp

/-- Witness for C2: on a page where `window.ui` is absent and
`window.swaggerSpec` is undefined, no strategy matches and the script
returns the null sentinel. -/
theorem c2_extract_first_match_witness :
    extractScript ⟨Option.none, PyVal.none⟩ = PyVal.none :=
  (c2_extract_first_match ⟨Option.none, PyVal.none⟩).2 rfl rfl rfl
    (fun st hst => by simp at hst)

lemma get_api_docs_ok_some (resp : HttpResponse) (j : PyVal)
    (h1 : resp.ok = true) (h2 : resp.jsonBody = some j) :
    get_api_docs resp =
      ([DocsEv.openTrunc, DocsEv.writeDoc (dumps j),
        DocsEv.printed "OpenAPI spec saved to dmi_openapi.json"], .ok j) := by
  simp [get_api_docs, respJson, h1, h2, ebind, emit, elift]

lemma get_api_docs_notok (resp : HttpResponse) (h1 : resp.ok = false) :
    get_api_docs resp = ([], respJson resp) := by
  simp [get_api_docs, h1, ebind, epure, elift]

/-- C3. `get_api_docs` performs its `json.dump` into `dmi_openapi.json` iff
`response.ok` holds (stated for responses whose body parses as JSON), yet it
parses and returns the body unconditionally: even on a non-success response
the parsed body is returned — or, if the body is not JSON, the
`JSONDecodeError` propagates — and no dump into the file ever happens on a
non-success response. -/
theorem c3_write_iff_ok_return_unconditional (resp : HttpResponse) :
    (∀ j, resp.jsonBody = some j →
      ((DocsEv.writeDoc (dumps j) ∈ (get_api_docs resp).1) ↔ resp.ok = true)
      ∧ (get_api_docs resp).2 = .ok j)
    ∧ (resp.ok = false →
      (∀ s, DocsEv.writeDoc s ∉ (get_api_docs resp).1)
      ∧ (resp.jsonBody = Option.none →
          (get_api_docs resp).2 = .error .jsonDecodeError)) := by
  obtain ⟨ok, body⟩ := resp
  cases ok with
  | true =>
    refine ⟨fun j hj => ?_, fun h => by simp at h⟩
    rw [get_api_docs_ok_some ⟨true, body⟩ j rfl hj]
    simp
  | false =>
    rw [get_api_docs_notok ⟨false, body⟩ rfl]
    refine ⟨fun j hj => ?_, fun _ => ⟨fun s => by simp, fun hb => ?_⟩⟩
    · refine ⟨by simp, ?_⟩
      show respJson ⟨false, body⟩ = Except.ok j
      rw [respJson, show body = some j from hj]
    · show respJson ⟨false, body⟩ = Except.error PyErr.jsonDecodeError
      rw [respJson, show body = (Option.none : Option PyVal) from hb]

/-- Witness for C3: a success response whose body is the empty JSON object is
dumped to the file and returned; a failure response with the same body is
returned without any dump. -/
theorem c3_write_iff_ok_witness :
    (DocsEv.writeDoc (dumps (PyVal.dict []))
        ∈ (get_api_docs ⟨true, some (PyVal.dict [])⟩).1)
    ∧ (get_api_docs ⟨true, some (PyVal.dict [])⟩).2 = .ok (PyVal.dict [])
    ∧ (DocsEv.writeDoc (dumps (PyVal.dict []))
        ∉ (get_api_docs ⟨false, some (PyVal.dict [])⟩).1)
    ∧ (get_api_docs ⟨false, some (PyVal.dict [])⟩).2 = .ok (PyVal.dict []) := by
  have ht := (c3_write_iff_ok_return_unconditional ⟨true, some (PyVal.dict [])⟩).1
    (PyVal.dict []) rfl
  have hf := c3_write_iff_ok_return_unconditional ⟨false, some (PyVal.dict [])⟩
  exact ⟨ht.1.mpr rfl, ht.2, (hf.2 rfl).1 _, (hf.1 (PyVal.dict []) rfl).2⟩

/-- C8. With a fixed remote document (a success response whose body parses to
`j`), each invocation of `get_api_docs` leaves `dmi_openapi.json` containing
exactly the serialization of `j`, independently of the file's prior content —
so repeated invocations overwrite the file with byte-identical content. -/
theorem c8_idempotent_file_content (resp : HttpResponse) (j : PyVal)
    (fs0 : Option String) (h1 : resp.ok = true) (h2 : resp.jsonBody = some j) :
    applyDocsFs fs0 (get_api_docs resp).1 = some (dumps j)
    ∧ applyDocsFs (applyDocsFs fs0 (get_api_docs resp).1) (get_api_docs resp).1
        = applyDocsFs fs0 (get_api_docs resp).1 := by
  rw [get_api_docs_ok_some resp j h1 h2]
  exact ⟨rfl, rfl⟩

/-- Witness for C8: two successive runs against the same success response,
starting from a non-existent file, both leave the same serialized empty
object in the file. -/
theorem c8_idempotent_file_content_witness :
    applyDocsFs Option.none (get_api_docs ⟨true, some (PyVal.dict [])⟩).1
      = some (dumps (PyVal.dict []))
    ∧ applyDocsFs
        (applyDocsFs Option.none (get_api_docs ⟨true, some (PyVal.dict [])⟩).1)
        (get_api_docs ⟨true, some (PyVal.dict [])⟩).1
      = applyDocsFs Option.none (get_api_docs ⟨true, some (PyVal.dict [])⟩).1 :=
  c8_idempotent_file_content ⟨true, some (PyVal.dict [])⟩ (PyVal.dict [])
    Option.none rfl rfl

/-- C10. When navigation and the ready-wait succeed and the extraction script
returns `spec`, `fetch_swagger_spec` dumps the specification to
`dmi_api_selenium.json` iff `spec` is truthy in Python, and runs the
not-found branch (the diagnostic spec-URL probe) iff `spec` is falsy — so a
non-null but falsy result such as `\x7b\x7d` or `""` is treated exactly like the
null sentinel. -/
theorem c10_persist_iff_truthy (env : SelEnv) (spec : PyVal)
    (h1 : env.navigate = .ok ()) (h2 : env.waitReady = .ok ())
    (h3 : env.extract = .ok spec) :
    ((SelEv.writeSpec (dumps spec) ∈ (fetch_swagger_spec env).1)
      ↔ pyTruthy spec = true)
    ∧ ((SelEv.execProbe ∈ (fetch_swagger_spec env).1) ↔ pyTruthy spec = false) := by
  cases ht : pyTruthy spec with
  | true =>
    simp [fetch_swagger_spec, fetchTryBody, ebind, emit, elift, h1, h2, h3, ht]
  | false =>
    cases h4 : env.probe with
    | error e =>
      simp [fetch_swagger_spec, fetchTryBody, ebind, emit, elift, h1, h2, h3, h4, ht]
    | ok url =>
      cases hu : pyTruthy url with
      | true =>
        simp [fetch_swagger_spec, fetchTryBody, ebind, emit, elift, epure,
          h1, h2, h3, h4, ht, hu]
      | false =>
        simp [fetch_swagger_spec, fetchTryBody, ebind, emit, elift, epure,
          h1, h2, h3, h4, ht, hu]

/-- Witness for C10: an environment whose extraction returns the empty object
(non-null but falsy) runs the spec-URL probe and writes no file. -/
theorem c10_persist_iff_truthy_witness :
    SelEv.execProbe
      ∈ (fetch_swagger_spec ⟨.ok (), .ok (), .ok (PyVal.dict []), .ok .none⟩).1
    ∧ SelEv.writeSpec (dumps (PyVal.dict []))
      ∉ (fetch_swagger_spec ⟨.ok (), .ok (), .ok (PyVal.dict []), .ok .none⟩).1 := by
  have h := c10_persist_iff_truthy ⟨.ok (), .ok (), .ok (PyVal.dict []), .ok .none⟩
    (PyVal.dict []) rfl rfl rfl
  exact ⟨h.2.mpr rfl, fun hm => absurd (h.1.mp hm) (by decide)⟩

/-- The stubbed `GET /collections` body of claim C7:
`\x7b"collections": [\x7b"id": "station", "title": "Stations"\x7d]\x7d`. -/
def c7CollectionsStub : PyVal :=
  .dict [("collections", .list [.dict [("id", .str "station"), ("title", .str "Stations")]])]

/-- C7. When the collections endpoint returns the stubbed response
`\x7b"collections": [\x7b"id": "station", "title": "Stations"\x7d]\x7d`, the output of
`print_api_structure` contains the line `- station: Stations`, whatever the
conformance and stations endpoints return. -/
theorem c7_stub_collections_line (conf st : PyVal) :
    "- station: Stations" ∈ (print_api_structure c7CollectionsStub conf st).1 := by
  rw [print_api_structure,
    ebind_fst_ok (collectionsBlock c7CollectionsStub) _ () rfl]
  apply List.mem_append_left
  decide

/-- A collections body whose single collection entry is missing the `id`
key (every key of this input that is absent is simply missing, none is
wrongly typed). -/
def c4BadCollections : PyVal :=
  .dict [("collections", .list [.dict [("title", .str "Temperature")]])]

/-- Counterexample to C4 as stated: on a collections response whose entry
merely lacks the `id` key, `print_api_structure` does not degrade gracefully —
the direct subscript `collection['id']` raises `KeyError('id')`. -/
theorem c4_missing_key_counterexample :
    (print_api_structure c4BadCollections (.dict []) (.dict [])).2
      = .error (.keyError "id") := by
  rfl

lemma printStandardsLoop_ok (xs : List PyVal) : (printStandardsLoop xs).2 = .ok () := by
  induction xs with
  | nil => rfl
  | cons x rest ih => simpa [printStandardsLoop, ebind, emit] using ih

lemma printParamsLoop_ok (xs : List PyVal) : (printParamsLoop xs).2 = .ok () := by
  induction xs with
  | nil => rfl
  | cons x rest ih => simpa [printParamsLoop, ebind, emit] using ih

lemma printCollectionEntry_ok (xd : List (String × PyVal))
    (h : (lookup' xd "id").isSome) : (printCollectionEntry (.dict xd)).2 = .ok () := by
  obtain ⟨v, hv⟩ := Option.isSome_iff_exists.mp h
  simp [printCollectionEntry, ebind, emit, elift, pySubscr, hv, pyDictGet]

lemma printCollectionsLoop_ok (xs : List PyVal)
    (h : ∀ x ∈ xs, ∃ xd, x = PyVal.dict xd ∧ (lookup' xd "id").isSome) :
    (printCollectionsLoop xs).2 = .ok () := by
  induction xs with
  | nil => rfl
  | cons x rest ih =>
    obtain ⟨xd, rfl, hid⟩ := h x (List.mem_cons_self x rest)
    rw [printCollectionsLoop,
      ebind_snd_ok _ _ () (printCollectionEntry_ok xd hid)]
    exact ih fun y hy => h y (List.mem_cons_of_mem _ hy)

lemma collectionsBlock_ok (cd : List (String × PyVal))
    (hc : ∀ v, lookup' cd "collections" = some v →
      ∃ xs, v = PyVal.list xs
        ∧ ∀ x ∈ xs, ∃ xd, x = PyVal.dict xd ∧ (lookup' xd "id").isSome) :
    (collectionsBlock (.dict cd)).2 = .ok () := by
  cases hl : lookup' cd "collections" with
  | none =>
    simp [collectionsBlock, ebind, emit, elift, epure, pyDictGet, hl, pyIter,
      printCollectionsLoop]
  | some v =>
    obtain ⟨xs, rfl, hall⟩ := hc v hl
    simp only [collectionsBlock, ebind, emit, elift, pyDictGet, hl, pyIter,
      Option.getD_some]
    simpa using printCollectionsLoop_ok xs hall

lemma conformanceBlock_ok (confd : List (String × PyVal))
    (hf : ∀ v, lookup' confd "conformsTo" = some v → ∃ xs, v = PyVal.list xs) :
    (conformanceBlock (.dict confd)).2 = .ok () := by
  cases hl : lookup' confd "conformsTo" with
  | none =>
    simp [conformanceBlock, ebind, emit, elift, epure, pyDictGet, hl, pyIter,
      printStandardsLoop]
  | some v =>
    obtain ⟨xs, rfl⟩ := hf v hl
    simp only [conformanceBlock, ebind, emit, elift, pyDictGet, hl, pyIter,
      Option.getD_some]
    simpa using printStandardsLoop_ok xs

lemma pySubscr_list_zero (x : PyVal) (rest : List PyVal) :
    pySubscr (.list (x :: rest)) (.int 0) = .ok x := by
  simp [pySubscr]

lemma stationBlock_ok (std : List (String × PyVal))
    (hs : ∀ v, lookup' std "features" = some v → pyTruthy v = true →
      ∃ x rest, v = PyVal.list (x :: rest)
        ∧ ∃ xd pd, x = PyVal.dict xd
          ∧ lookup' xd "properties" = some (PyVal.dict pd)
          ∧ (∀ pv, lookup' pd "parameterId" = some pv → ∃ ps, pv = PyVal.list ps)) :
    (stationBlock (.dict std)).2 = .ok () := by
  cases hl : lookup' std "features" with
  | none =>
    simp [stationBlock, ebind, emit, elift, pyDictGet, hl, pyTruthy, epure]
  | some v =>
    cases htv : pyTruthy v with
    | false =>
      simp [stationBlock, ebind, emit, elift, pyDictGet, hl, htv, epure]
    | true =>
      obtain ⟨x, rest, hv, xd, pd, hx, hprop, hpid⟩ := hs v hl htv
      subst hv
      subst hx
      cases hp : lookup' pd "parameterId" with
      | none =>
        simp [stationBlock, ebind, emit, elift, epure, pyDictGet, pySubscr,
          hl, htv, hprop, hp, pyIter, printParamsLoop, List.get_cons_zero]
      | some pv =>
        obtain ⟨ps, rfl⟩ := hpid pv hp
        simp [stationBlock, ebind, emit, elift, epure, pyDictGet, pySubscr,
          hl, htv, hprop, hp, pyIter, printParamsLoop_ok, List.get_cons_zero]

/-- C4 amended. `print_api_structure` degrades gracefully — prints defaults
and raises nothing — on every response in which a key read through a
default-value lookup (`collections`, `title`, `description`, `conformsTo`,
`features`, `name`, `parameterId`) is missing, and a falsy `features` value
only short-circuits the station print block; but a collection entry missing
the directly subscripted `id` key, or a station feature missing `properties`,
raises a `KeyError` (the original claim's "does not raise" fails there, per
the counterexample). The hypotheses only require the directly subscripted
keys to be present and each traversed value to have its expected type. -/
theorem c4_graceful_on_missing_get_keys
    (cd confd std : List (String × PyVal))
    (hc : ∀ v, lookup' cd "collections" = some v →
      ∃ xs, v = PyVal.list xs
        ∧ ∀ x ∈ xs, ∃ xd, x = PyVal.dict xd ∧ (lookup' xd "id").isSome)
    (hf : ∀ v, lookup' confd "conformsTo" = some v → ∃ xs, v = PyVal.list xs)
    (hs : ∀ v, lookup' std "features" = some v → pyTruthy v = true →
      ∃ x rest, v = PyVal.list (x :: rest)
        ∧ ∃ xd pd, x = PyVal.dict xd
          ∧ lookup' xd "properties" = some (PyVal.dict pd)
          ∧ (∀ pv, lookup' pd "parameterId" = some pv → ∃ ps, pv = PyVal.list ps)) :
    (print_api_structure (.dict cd) (.dict confd) (.dict std)).2 = .ok () := by
  rw [print_api_structure, ebind_snd_ok _ _ () (collectionsBlock_ok cd hc),
    ebind_snd_ok _ _ () (conformanceBlock_ok confd hf)]
  exact stationBlock_ok std hs

/-- Witness for the amended C4: responses missing the `title`, `description`,
`conformsTo` and `features` keys (while the one collection entry does have
`id`) are printed without any exception. -/
theorem c4_graceful_on_missing_get_keys_witness :
    (print_api_structure
        (.dict [("collections", .list [.dict [("id", .str "station")]])])
        (.dict []) (.dict [])).2 = .ok () := by
  refine c4_graceful_on_missing_get_keys
    [("collections", .list [.dict [("id", .str "station")]])] [] []
    (fun v hv => ?_) (fun v hv => by simp [lookup'] at hv)
    (fun v hv => by simp [lookup'] at hv)
  refine ⟨[.dict [("id", .str "station")]], ?_, ?_⟩
  · simpa [lookup'] using hv.symm
  · intro x hx
    rw [List.mem_singleton] at hx
    exact ⟨[("id", .str "station")], hx, by decide⟩
